import Mathlib

/-!
Shallow embedding of the i2cdev-bno055 driver (src/src/lib.rs).

Bytes are modelled as `Nat` values; every value read from or written over
the bus is reduced modulo 256, mirroring the `u8` type of the source.  The
bus transport is an oracle (`Bus`) giving the outcome of each raw
transaction, and every driver operation is a function from the oracle and
the driver state to a result, the new driver state, and the ordered list
of bus transactions and sleeps the operation performed (`Op`).  Transport
errors carry an abstract `Nat` code; a Rust panic is modelled by the
distinct outcome `Failure.panicked`.  The `f32` arithmetic of the source
is modelled over `ℚ`; for the decodes proved about below this is exact in
IEEE binary32 as well: an `i16` value converts to `f32` exactly, and
multiplying it by the power-of-two constant `1.0 / 16384.0` only shifts
the exponent, and the one-byte temperature value converts exactly.
-/

namespace BNO055

/-- Register constants from src/src/lib.rs (only those the verified
operations touch). -/
def BNO055_ID : Nat := 0xA0

def BNO055_PAGE_ID : Nat := 0x07

def BNO055_CHIP_ID : Nat := 0x00

def BNO055_QUA_DATA_W_LSB : Nat := 0x20

def BNO055_TEMP : Nat := 0x34

def BNO055_CALIB_STAT : Nat := 0x35

def BNO055_ST_RESULT : Nat := 0x36

def BNO055_SYS_STATUS : Nat := 0x39

def BNO055_SYS_ERR : Nat := 0x3A

def BNO055_OPR_MODE : Nat := 0x3D

def BNO055_PWR_MODE : Nat := 0x3E

def BNO055_SYS_TRIGGER : Nat := 0x3F

def BNO055_ACC_OFFSET_X_LSB : Nat := 0x55

/-- The 13 operating modes of `BNO055OperationMode` (src/src/lib.rs,
lines 205-219). -/
inductive BNO055OperationMode
  | ConfigMode
  | AccOnly
  | MagOnly
  | GyroOnly
  | AccMag
  | AccGyro
  | MagGyro
  | AMG
  | IMU
  | Compass
  | M4G
  | NdofFmcOff
  | Ndof
deriving DecidableEq, Repr

/-- The `repr(u8)` discriminant of each operating mode. -/
def BNO055OperationMode.toByte : BNO055OperationMode → Nat
  | .ConfigMode => 0b0000
  | .AccOnly => 0b0001
  | .MagOnly => 0b0010
  | .GyroOnly => 0b0011
  | .AccMag => 0b0100
  | .AccGyro => 0b0101
  | .MagGyro => 0b0110
  | .AMG => 0b0111
  | .IMU => 0b1000
  | .Compass => 0b1001
  | .M4G => 0b1010
  | .NdofFmcOff => 0b1011
  | .Ndof => 0b1100

/-- Register pages (`BNO055RegisterPage`). -/
inductive BNO055RegisterPage
  | Page0
  | Page1
deriving DecidableEq, Repr

/-- The `repr(u8)` discriminant of each register page. -/
def BNO055RegisterPage.toByte : BNO055RegisterPage → Nat
  | .Page0 => 0
  | .Page1 => 1

/-- Power modes (`BNO055PowerMode`). -/
inductive BNO055PowerMode
  | Normal
  | LowPower
  | Suspend
deriving DecidableEq, Repr

/-- The `repr(u8)` discriminant of each power mode. -/
def BNO055PowerMode.toByte : BNO055PowerMode → Nat
  | .Normal => 0b00
  | .LowPower => 0b01
  | .Suspend => 0b10

/-- The system status codes (`BNO055SystemStatusCode`, discriminants
0 through 6). -/
inductive BNO055SystemStatusCode
  | SystemIdle
  | SystemError
  | InitPeripherals
  | SystemInit
  | Executing
  | Running
  | RunningWithoutFusion
deriving DecidableEq, Repr

/-- The fallible decode of a status byte into the enumeration: the byte
values 0 through 6 are the declared discriminants, every other byte has no
corresponding enum value (the source instead reinterprets the raw byte via
`mem::transmute`). -/
def BNO055SystemStatusCode.fromByte : Nat → Option BNO055SystemStatusCode
  | 0 => some .SystemIdle
  | 1 => some .SystemError
  | 2 => some .InitPeripherals
  | 3 => some .SystemInit
  | 4 => some .Executing
  | 5 => some .Running
  | 6 => some .RunningWithoutFusion
  | _ => none

/-- The system error codes (`BNO055SystemErrorCode`, discriminants
0 through 10). -/
inductive BNO055SystemErrorCode
  | NoError
  | PeripheralInit
  | SystemInit
  | SelfTest
  | RegisterMapValue
  | RegisterMapAddress
  | RegisterMapWrite
  | LowPowerModeNotAvail
  | AccelPowerModeNotAvail
  | FusionAlgoConfig
  | SensorConfig
deriving DecidableEq, Repr

/-- The fallible decode of an error byte into the enumeration: the byte
values 0 through 10 are the declared discriminants, every other byte has
no corresponding enum value. -/
def BNO055SystemErrorCode.fromByte : Nat → Option BNO055SystemErrorCode
  | 0 => some .NoError
  | 1 => some .PeripheralInit
  | 2 => some .SystemInit
  | 3 => some .SelfTest
  | 4 => some .RegisterMapValue
  | 5 => some .RegisterMapAddress
  | 6 => some .RegisterMapWrite
  | 7 => some .LowPowerModeNotAvail
  | 8 => some .AccelPowerModeNotAvail
  | 9 => some .FusionAlgoConfig
  | 10 => some .SensorConfig
  | _ => none

/-- Driver state: the cached operating mode (`BNO055.mode` in the
source; the transport handle is factored out as the `Bus` oracle). -/
structure Driver where
  mode : BNO055OperationMode
deriving DecidableEq, Repr

/-- One completed bus transaction or sleep, in the order the driver
performed it. -/
inductive Event
  | readByte (reg val : Nat)
  | writeByte (reg val : Nat)
  | readBlock (reg len : Nat) (vals : List Nat)
  | writeBlock (reg : Nat) (vals : List Nat)
  | sleepMs (ms : Nat)
deriving DecidableEq, Repr

/-- How a driver operation can fail: a propagated transport error
(abstract code), or a Rust panic. -/
inductive Failure
  | transport (e : Nat)
  | panicked (msg : String)
deriving DecidableEq, Repr

/-- The bus transport oracle: the outcome of each raw smbus transaction
the driver may issue.  Read results are arbitrary naturals here; the
driver-side primitives reduce them modulo 256 as the `u8` return type of
the source does. -/
structure Bus where
  readByte : Nat → Except Nat Nat
  writeByte : Nat → Nat → Except Nat Unit
  readBlock : Nat → Nat → Except Nat (List Nat)
  writeBlock : Nat → List Nat → Except Nat Unit

/-- A driver operation: given the bus oracle and the driver state, it
yields the result (or failure), the new driver state, and the trace of
performed transactions and sleeps. -/
def Op (α : Type) : Type :=
  Bus → Driver → Except Failure α × Driver × List Event

/-- Sequencing of operations, mirroring the Rust `?` operator: on failure
the remainder does not run and the trace so far is kept. -/
def Op.bind {α β : Type} (x : Op α) (f : α → Op β) : Op β := fun bus d =>
  match x bus d with
  | (.error e, d1, t1) => (.error e, d1, t1)
  | (.ok a, d1, t1) =>
    match f a bus d1 with
    | (r, d2, t2) => (r, d2, t1 ++ t2)

/-- An operation that performs no transaction and returns a value. -/
def Op.pure {α : Type} (a : α) : Op α := fun _ d => (.ok a, d, [])

/-- Embedding of `i2cdev.smbus_read_byte_data`: one byte read, reduced
modulo 256 as by the `u8` return type. -/
def smbus_read_byte_data (reg : Nat) : Op Nat := fun bus d =>
  match bus.readByte reg with
  | .ok v => (.ok (v % 256), d, [Event.readByte reg (v % 256)])
  | .error e => (.error (.transport e), d, [])

/-- Embedding of `i2cdev.smbus_write_byte_data`. -/
def smbus_write_byte_data (reg val : Nat) : Op Unit := fun bus d =>
  match bus.writeByte reg (val % 256) with
  | .ok _ => (.ok (), d, [Event.writeByte reg (val % 256)])
  | .error e => (.error (.transport e), d, [])

/-- Embedding of `i2cdev.smbus_read_i2c_block_data`. -/
def smbus_read_i2c_block_data (reg len : Nat) : Op (List Nat) := fun bus d =>
  match bus.readBlock reg len with
  | .ok vs =>
    (.ok (vs.map (fun v => v % 256)), d,
      [Event.readBlock reg len (vs.map (fun v => v % 256))])
  | .error e => (.error (.transport e), d, [])

/-- Embedding of `i2cdev.smbus_write_block_data`. -/
def smbus_write_block_data (reg : Nat) (vals : List Nat) : Op Unit := fun bus d =>
  match bus.writeBlock reg (vals.map (fun v => v % 256)) with
  | .ok _ => (.ok (), d, [Event.writeBlock reg (vals.map (fun v => v % 256))])
  | .error e => (.error (.transport e), d, [])

/-- Embedding of `thread::sleep`, with the duration in milliseconds. -/
def sleep_ms (ms : Nat) : Op Unit := fun _ d => (.ok (), d, [Event.sleepMs ms])

/-- Embedding of `set_mode` (src/src/lib.rs lines 259-270): when the
requested mode differs from the cached one, write its discriminant to the
mode register and sleep 19 ms.  The source contains no assignment
`self.mode = mode`, so the cached `mode` field is left unchanged on every
path; this embedding reproduces that. -/
def set_mode (mode : BNO055OperationMode) : Op Unit := fun bus d =>
  if d.mode ≠ mode then
    (Op.bind (smbus_write_byte_data BNO055_OPR_MODE mode.toByte) (fun _ =>
      sleep_ms 19)) bus d
  else
    (.ok (), d, [])

/-- Embedding of `reset`: write 0x20 to the trigger register. -/
def reset : Op Unit := smbus_write_byte_data BNO055_SYS_TRIGGER 0x20

/-- Embedding of `set_power_mode`. -/
def set_power_mode (mode : BNO055PowerMode) : Op Unit :=
  smbus_write_byte_data BNO055_PWR_MODE mode.toByte

/-- Embedding of `set_page`. -/
def set_page (page : BNO055RegisterPage) : Op Unit :=
  smbus_write_byte_data BNO055_PAGE_ID page.toByte

/-- The initialization steps of `new` that follow a successful chip
identity check, in source order. -/
def initSteps : Op Unit :=
  Op.bind (set_mode .ConfigMode) (fun _ =>
  Op.bind (set_page .Page0) (fun _ =>
  Op.bind reset (fun _ =>
  Op.bind (set_power_mode .Normal) (fun _ =>
  smbus_write_byte_data BNO055_SYS_TRIGGER 0x0))))

/-- Embedding of `new` (src/src/lib.rs lines 231-249): read the chip
identity byte; on mismatch the source executes
`panic!("BNO055_CHIP_ID was not valid!")` (modelled as the
`Failure.panicked` outcome, distinct from an error return); on match it
builds the driver with cached mode `ConfigMode` and runs the remaining
initialization steps. -/
def new (bus : Bus) : Except Failure Driver × List Event :=
  match bus.readByte BNO055_CHIP_ID with
  | .error e => (.error (.transport e), [])
  | .ok v =>
    if v % 256 ≠ BNO055_ID then
      (.error (.panicked "BNO055_CHIP_ID was not valid!"),
        [Event.readByte BNO055_CHIP_ID (v % 256)])
    else
      match initSteps bus { mode := BNO055OperationMode.ConfigMode } with
      | (.ok _, d, t) => (.ok d, Event.readByte BNO055_CHIP_ID (v % 256) :: t)
      | (.error e, _, t) => (.error e, Event.readByte BNO055_CHIP_ID (v % 256) :: t)

/-- Two-byte little-endian signed 16-bit decode
(`LittleEndian::read_i16`): low byte first, two representations reduced
modulo 256, value taken in two-complement. -/
def read_i16_le (b0 b1 : Nat) : Int :=
  let u := (b0 % 256) + 256 * (b1 % 256)
  if u < 32768 then (u : Int) else (u : Int) - 65536

/-- Quaternion reading (`BNO055QuaternionReading`); the `f32` components
of the source are modelled exactly over `ℚ` (see the file comment). -/
structure BNO055QuaternionReading where
  w : ℚ
  x : ℚ
  y : ℚ
  z : ℚ
deriving DecidableEq, Repr

/-- Embedding of `get_quaternion` (src/src/lib.rs lines 305-322): one
8-byte block read starting at the quaternion data register, then four
little-endian signed 16-bit decodes (w, x, y, z in that order) scaled by
`1.0 / ((1 << 14) as f32)`.  The slice indexing `buf[0..2]` and so on of
the source panics when the returned block is shorter than 8 bytes; that
is modelled by the `panicked` outcome. -/
def get_quaternion : Op BNO055QuaternionReading := fun bus d =>
  match smbus_read_i2c_block_data BNO055_QUA_DATA_W_LSB 8 bus d with
  | (.error e, d1, t1) => (.error e, d1, t1)
  | (.ok buf, d1, t1) =>
    match buf with
    | [b0, b1, b2, b3, b4, b5, b6, b7] =>
      (.ok
        { w := (read_i16_le b0 b1 : ℚ) / 16384
          x := (read_i16_le b2 b3 : ℚ) / 16384
          y := (read_i16_le b4 b5 : ℚ) / 16384
          z := (read_i16_le b6 b7 : ℚ) / 16384 }, d1, t1)
    | _ => (.error (.panicked "index out of range"), d1, t1)

/-- System status result (`BNO055SystemStatus`).  The source fills the
`status` and `error` fields by `unsafe { mem::transmute(byte) }`, an
unchecked reinterpretation of the raw byte as the enum discriminant: the
fields here therefore hold the raw discriminant byte, which need not be a
declared discriminant of the corresponding enumeration. -/
structure BNO055SystemStatus where
  status : Nat
  error : Nat
  selftest : Option Nat
deriving DecidableEq, Repr

/-- The self-test branch of `get_system_status` when `run` is true
(src/src/lib.rs lines 340-357): capture the current mode, switch to
config mode, read the trigger register, write it back with the self-test
bit set, sleep one second, read the result register, and call `set_mode`
with the captured mode. -/
def selftest_part : Op (Option Nat) := fun bus d =>
  let prev := d.mode
  (Op.bind (set_mode .ConfigMode) (fun _ =>
   Op.bind (smbus_read_byte_data BNO055_SYS_TRIGGER) (fun sys_trigger =>
   Op.bind (smbus_write_byte_data BNO055_SYS_TRIGGER (sys_trigger ||| 0x1)) (fun _ =>
   Op.bind (sleep_ms 1000) (fun _ =>
   Op.bind (smbus_read_byte_data BNO055_ST_RESULT) (fun result =>
   Op.bind (set_mode prev) (fun _ =>
   Op.pure (some result)))))))) bus d

/-- Embedding of `get_system_status` (src/src/lib.rs lines 339-364): the
optional self-test sequence, then one read of the system status register
and one read of the system error register, both reinterpreted as enum
discriminants by `mem::transmute` (kept as the raw bytes here, see
`BNO055SystemStatus`). -/
def get_system_status (run : Bool) : Op BNO055SystemStatus :=
  Op.bind (if run then selftest_part else Op.pure none) (fun selftest =>
  Op.bind (smbus_read_byte_data BNO055_SYS_STATUS) (fun status =>
  Op.bind (smbus_read_byte_data BNO055_SYS_ERR) (fun err =>
  Op.pure { status := status, error := err, selftest := selftest })))

/-- Calibration status flags (`BNO055CalibrationStatus`). -/
structure BNO055CalibrationStatus where
  sys : Bool
  gyr : Bool
  acc : Bool
  mag : Bool
deriving DecidableEq, Repr

/-- The pure decode step of `get_calibration_status` (src/src/lib.rs
lines 369-372), reproducing the shift arithmetic of the source verbatim:
all four comparisons shift the masked byte right by 6 bits. -/
def calibration_status_decode (status : Nat) : BNO055CalibrationStatus :=
  { sys := (status &&& 0b11000000) >>> 6 == 0b11
    gyr := (status &&& 0b00110000) >>> 6 == 0b11
    acc := (status &&& 0b00001100) >>> 6 == 0b11
    mag := (status &&& 0b00000011) >>> 6 == 0b11 }

/-- Embedding of `get_calibration_status` (src/src/lib.rs lines
367-375): one read of the calibration status register, then the decode
above. -/
def get_calibration_status : Op BNO055CalibrationStatus :=
  Op.bind (smbus_read_byte_data BNO055_CALIB_STAT) (fun status =>
  Op.pure (calibration_status_decode status))

/-- Embedding of `get_calibration` (src/src/lib.rs lines 380-388):
capture the current mode, read the 22-byte offset block (the read result
is bound without the question-mark operator), call `set_mode` with the
captured mode, and return the read result.  The source contains no switch
to config mode before the block read; this embedding reproduces that. -/
def get_calibration : Op (List Nat) := fun bus d =>
  let prev := d.mode
  match smbus_read_i2c_block_data BNO055_ACC_OFFSET_X_LSB 22 bus d with
  | (bufRes, d1, t1) =>
    match set_mode prev bus d1 with
    | (.error e, d2, t2) => (.error e, d2, t1 ++ t2)
    | (.ok _, d2, t2) => (bufRes, d2, t1 ++ t2)

/-- Embedding of `set_calibration` (src/src/lib.rs lines 393-401):
capture the current mode, write the block to the offset registers, call
`set_mode` with the captured mode.  As in the source, there is no switch
to config mode before the block write. -/
def set_calibration (buf : List Nat) : Op Unit := fun bus d =>
  let prev := d.mode
  (Op.bind (smbus_write_block_data BNO055_ACC_OFFSET_X_LSB buf) (fun _ =>
   set_mode prev)) bus d

/-- Embedding of `temperature_celsius` (src/src/lib.rs lines 522-524):
one read of the temperature register, the byte cast `as u8 as f32`
(an unsigned interpretation, modelled exactly as the rational value of
the byte). -/
def temperature_celsius : Op ℚ :=
  Op.bind (smbus_read_byte_data BNO055_TEMP) (fun v =>
  Op.pure (v : ℚ))

/-- Decidable equality for `Except`, needed to settle closed runs of the
embedded operations by `decide`. -/
instance {ε α : Type} [DecidableEq ε] [DecidableEq α] : DecidableEq (Except ε α) :=
  fun x y =>
    match x, y with
    | .ok a, .ok b =>
      if h : a = b then isTrue (by rw [h])
      else isFalse (by intro he; cases he; exact h rfl)
    | .error a, .error b =>
      if h : a = b then isTrue (by rw [h])
      else isFalse (by intro he; cases he; exact h rfl)
    | .ok _, .error _ => isFalse (by intro he; cases he)
    | .error _, .ok _ => isFalse (by intro he; cases he)

/-! Concrete bus oracles used to run the embedded operations. -/

/-- A bus whose byte reads return the value of `f` at the register, whose
block reads return a zero-filled block of the requested length, and whose
writes succeed. -/
def busFromFun (f : Nat → Nat) : Bus :=
  { readByte := fun reg => .ok (f reg)
    writeByte := fun _ _ => .ok ()
    readBlock := fun _ len => .ok (List.replicate len 0)
    writeBlock := fun _ _ => .ok () }

/-- A bus on which every transaction succeeds and every byte read
returns 0. -/
def busOkZero : Bus := busFromFun (fun _ => 0)

/-- A bus whose chip identity register reads the expected identity byte
0xA0 and whose other reads return 0. -/
def goodBus : Bus := busFromFun (fun r => if r = BNO055_CHIP_ID then 0xA0 else 0)

/-- A bus on which every byte read returns 0x55, in particular the chip
identity register. -/
def badIdBus : Bus := busFromFun (fun _ => 0x55)

/-- A bus whose block reads all return the fixed block `bs`. -/
def busWithBlock (bs : List Nat) : Bus :=
  { readByte := fun _ => .ok 0
    writeByte := fun _ _ => .ok ()
    readBlock := fun _ _ => .ok bs
    writeBlock := fun _ _ => .ok () }

/-- A bus for the self-test scenario: the trigger register reads 0x40,
the self-test result register reads 0x0F, the system status register
reads 5, everything else reads 0. -/
def selftestBus : Bus := busFromFun (fun r =>
  if r = BNO055_SYS_TRIGGER then 0x40
  else if r = BNO055_ST_RESULT then 0x0F
  else if r = BNO055_SYS_STATUS then 5
  else 0)

/-- A bus whose system status register reads 7 and whose system error
register reads 11, both one past the last declared discriminant of the
corresponding enumeration. -/
def statusBus : Bus := busFromFun (fun r =>
  if r = BNO055_SYS_STATUS then 7
  else if r = BNO055_SYS_ERR then 11
  else 0)

/-! Claim theorems. -/

/-- C1: on a driver cached in ConfigMode, `set_mode AccOnly` performs
exactly one byte write of the new mode value to the mode register
followed by the 19 ms settling sleep, but the resulting driver state
still caches ConfigMode: the source never updates the cached mode field,
so the cache is NOT set to the new mode as the claim states. -/
theorem set_mode_distinct_writes_but_cache_stale :
    set_mode .AccOnly busOkZero { mode := .ConfigMode } =
      (.ok (), { mode := .ConfigMode },
        [Event.writeByte BNO055_OPR_MODE BNO055OperationMode.AccOnly.toByte,
         Event.sleepMs 19]) ∧
    BNO055OperationMode.AccOnly ≠ BNO055OperationMode.ConfigMode := by
  decide

/-- C2: with the calibration status byte 0b11111111 the decode of the
source yields sys true but gyr, acc and mag false, because the source
shifts all four masked fields right by 6 bits; the claim that all four
flags are true at 0xFF fails on the code. -/
theorem calibration_status_all_set_byte_not_all_true :
    get_calibration_status (busFromFun (fun _ => 0xFF)) { mode := .ConfigMode } =
      (.ok { sys := true, gyr := false, acc := false, mag := false },
        { mode := .ConfigMode }, [Event.readByte BNO055_CALIB_STAT 0xFF]) ∧
    calibration_status_decode 0b11111111 =
      { sys := true, gyr := false, acc := false, mag := false } ∧
    calibration_status_decode 0b00000000 =
      { sys := false, gyr := false, acc := false, mag := false } := by
  decide

/-- C3: on a bus whose status register reads 7 and whose error register
reads 11 (both outside the declared discriminant ranges 0-6 and 0-10),
`get_system_status` returns an Ok result carrying the raw bytes as enum
discriminants: the source reinterprets the bytes with `mem::transmute`
instead of failing the decode, and neither byte corresponds to any
declared enum value. -/
theorem system_status_raw_reinterpretation :
    get_system_status false statusBus { mode := .ConfigMode } =
      (.ok { status := 7, error := 11, selftest := none }, { mode := .ConfigMode },
        [Event.readByte BNO055_SYS_STATUS 7, Event.readByte BNO055_SYS_ERR 11]) ∧
    BNO055SystemStatusCode.fromByte 7 = none ∧
    BNO055SystemErrorCode.fromByte 11 = none := by
  decide

/-- C4: after successful initialization the cached mode is ConfigMode and
no mode-register write has occurred, but the first actual mode switch
(here to Ndof) writes the byte 12 to the mode register while the cache
still holds ConfigMode (byte 0): the cached mode then differs from the
value most recently written to the mode register, so the claimed
invariant fails after `set_mode`. -/
theorem mode_cache_diverges_from_last_write :
    new goodBus =
      (.ok { mode := .ConfigMode },
        [Event.readByte BNO055_CHIP_ID 0xA0,
         Event.writeByte BNO055_PAGE_ID 0,
         Event.writeByte BNO055_SYS_TRIGGER 0x20,
         Event.writeByte BNO055_PWR_MODE 0,
         Event.writeByte BNO055_SYS_TRIGGER 0]) ∧
    set_mode .Ndof goodBus { mode := .ConfigMode } =
      (.ok (), { mode := .ConfigMode },
        [Event.writeByte BNO055_OPR_MODE BNO055OperationMode.Ndof.toByte,
         Event.sleepMs 19]) ∧
    BNO055OperationMode.ConfigMode.toByte ≠ BNO055OperationMode.Ndof.toByte := by
  decide

/-- C5: on a driver cached in Ndof mode, `get_calibration` performs only
the 22-byte block read and `set_calibration` performs only the block
write; neither trace contains any write to the mode register, so neither
operation switches to ConfigMode before the register access as the claim
states. -/
theorem calibration_ops_skip_config_mode :
    get_calibration goodBus { mode := .Ndof } =
      (.ok (List.replicate 22 0), { mode := .Ndof },
        [Event.readBlock BNO055_ACC_OFFSET_X_LSB 22 (List.replicate 22 0)]) ∧
    set_calibration (List.replicate 22 1) goodBus { mode := .Ndof } =
      (.ok (), { mode := .Ndof },
        [Event.writeBlock BNO055_ACC_OFFSET_X_LSB (List.replicate 22 1)]) := by
  decide

/-- C6: with a chip identity byte of 0x55 (not 0xA0), `new` stops after
the single identity read with a panic, not an error return, issuing no
further register transaction; with the identity byte 0xA0 it proceeds
through page select, reset, power mode and trigger clear in that order.
The failure outcome is the panic of the source, so the claim that
initialization returns an error fails on the code. -/
theorem new_panics_on_bad_chip_id :
    new badIdBus =
      (.error (.panicked "BNO055_CHIP_ID was not valid!"),
        [Event.readByte BNO055_CHIP_ID 0x55]) ∧
    new goodBus =
      (.ok { mode := .ConfigMode },
        [Event.readByte BNO055_CHIP_ID 0xA0,
         Event.writeByte BNO055_PAGE_ID 0,
         Event.writeByte BNO055_SYS_TRIGGER 0x20,
         Event.writeByte BNO055_PWR_MODE 0,
         Event.writeByte BNO055_SYS_TRIGGER 0]) := by
  decide

/-- C7: on a driver cached in Ndof mode, the self-test path of
`get_system_status` writes ConfigMode to the mode register, reads the
trigger register once (0x40), writes it back once with only the self-test
bit added (0x41), sleeps 1000 ms, reads the result register once and
surfaces the byte as-is; but the trace contains no second mode-register
write, so the pre-call mode Ndof is never written back to the chip: the
final `set_mode(prev)` call compares the captured mode against the never
updated cache and does nothing, and the claimed mode restoration fails. -/
theorem selftest_sequence_no_mode_restore :
    get_system_status true selftestBus { mode := .Ndof } =
      (.ok { status := 5, error := 0, selftest := some 0x0F }, { mode := .Ndof },
        [Event.writeByte BNO055_OPR_MODE 0,
         Event.sleepMs 19,
         Event.readByte BNO055_SYS_TRIGGER 0x40,
         Event.writeByte BNO055_SYS_TRIGGER 0x41,
         Event.sleepMs 1000,
         Event.readByte BNO055_ST_RESULT 0x0F,
         Event.readByte BNO055_SYS_STATUS 5,
         Event.readByte BNO055_SYS_ERR 0]) := by
  decide

/-- C8: on any bus whose quaternion block read returns eight bytes,
`get_quaternion` decodes the block as four little-endian signed 16-bit
integers, w, x, y, z in that order, each divided by 16384. -/
theorem get_quaternion_le_i16_scaled (bus : Bus) (d : Driver)
    (b0 b1 b2 b3 b4 b5 b6 b7 : Nat)
    (hread : bus.readBlock BNO055_QUA_DATA_W_LSB 8 =
      .ok [b0, b1, b2, b3, b4, b5, b6, b7])
    (h0 : b0 < 256) (h1 : b1 < 256) (h2 : b2 < 256) (h3 : b3 < 256)
    (h4 : b4 < 256) (h5 : b5 < 256) (h6 : b6 < 256) (h7 : b7 < 256) :
    get_quaternion bus d =
      (.ok
        { w := (read_i16_le b0 b1 : ℚ) / 16384
          x := (read_i16_le b2 b3 : ℚ) / 16384
          y := (read_i16_le b4 b5 : ℚ) / 16384
          z := (read_i16_le b6 b7 : ℚ) / 16384 }, d,
        [Event.readBlock BNO055_QUA_DATA_W_LSB 8 [b0, b1, b2, b3, b4, b5, b6, b7]]) := by
  simp [get_quaternion, smbus_read_i2c_block_data, hread,
    Nat.mod_eq_of_lt h0, Nat.mod_eq_of_lt h1, Nat.mod_eq_of_lt h2,
    Nat.mod_eq_of_lt h3, Nat.mod_eq_of_lt h4, Nat.mod_eq_of_lt h5,
    Nat.mod_eq_of_lt h6, Nat.mod_eq_of_lt h7]

/-- C8 witness: the raw block 0x00 0x40 0x00 ... 0x00 (little-endian
16384, 0, 0, 0) decodes to the unit quaternion w = 1, x = y = z = 0. -/
theorem get_quaternion_le_i16_scaled_check :
    get_quaternion (busWithBlock [0, 0x40, 0, 0, 0, 0, 0, 0]) { mode := .Ndof } =
      (.ok { w := 1, x := 0, y := 0, z := 0 }, { mode := .Ndof },
        [Event.readBlock BNO055_QUA_DATA_W_LSB 8 [0, 0x40, 0, 0, 0, 0, 0, 0]]) := by
  have h := get_quaternion_le_i16_scaled (busWithBlock [0, 0x40, 0, 0, 0, 0, 0, 0])
    { mode := .Ndof } 0 0x40 0 0 0 0 0 0 rfl
    (by decide) (by decide) (by decide) (by decide)
    (by decide) (by decide) (by decide) (by decide)
  rw [h]
  norm_num [read_i16_le]

/-- C9: for every one of the 13 operating modes, calling `set_mode` with
the mode already cached performs no transaction and no sleep (the trace
is empty) and leaves the driver state unchanged. -/
theorem set_mode_same_mode_is_noop (m : BNO055OperationMode) (bus : Bus)
    (d : Driver) (h : d.mode = m) :
    set_mode m bus d = (.ok (), d, []) := by
  simp [set_mode, h]

/-- C9 witness: switching to Ndof while Ndof is cached is a no-op. -/
theorem set_mode_same_mode_is_noop_check :
    set_mode .Ndof busOkZero { mode := .Ndof } =
      (.ok (), { mode := .Ndof }, []) :=
  set_mode_same_mode_is_noop .Ndof busOkZero { mode := .Ndof } rfl

/-- C10: for every byte value read from the temperature register,
`temperature_celsius` returns exactly the unsigned value of that byte,
which lies between 0 and 255; the driver can never report a negative
temperature. -/
theorem temperature_celsius_unsigned_byte (bus : Bus) (d : Driver) (b : Nat)
    (hread : bus.readByte BNO055_TEMP = .ok b) (hb : b < 256) :
    temperature_celsius bus d =
      (.ok (b : ℚ), d, [Event.readByte BNO055_TEMP b]) ∧
    0 ≤ (b : ℚ) ∧ (b : ℚ) ≤ 255 := by
  refine ⟨?_, by positivity, ?_⟩
  · simp [temperature_celsius, Op.bind, Op.pure, smbus_read_byte_data, hread,
      Nat.mod_eq_of_lt hb]
  · exact_mod_cast Nat.lt_succ_iff.mp hb

/-- C10 witness: a temperature byte of 25 is returned as 25. -/
theorem temperature_celsius_unsigned_byte_check :
    temperature_celsius (busFromFun (fun _ => 25)) { mode := .Ndof } =
      (.ok ((25 : Nat) : ℚ), { mode := .Ndof }, [Event.readByte BNO055_TEMP 25]) ∧
    0 ≤ ((25 : Nat) : ℚ) ∧ ((25 : Nat) : ℚ) ≤ 255 :=
  temperature_celsius_unsigned_byte (busFromFun (fun _ => 25)) { mode := .Ndof }
    25 rfl (by decide)

end BNO055
